import Mathlib

/-!
Shallow embedding of the LumoGen Voice Studio server (src/app4.py).

The embedding covers the voice catalog and its filtering, the speed-to-rate
conversion, the per-session temporary-artifact registry together with the
HTTP handlers that allocate, serve and purge artifacts, and the
transcription-upload handler.

Modelling conventions:
* Python dicts are association lists (`List (String × α)`, insertion order
  preserved, keys unique by construction) or functions into `Option`.
* Python string primitives (`str.lower`, `str.strip`, substring `in`,
  `os.path.basename`) are implemented structurally on the character list of
  a `String`; the strings the server handles are ASCII, where these agree
  with Python's Unicode versions.
* The `speed` float is modelled as an exact rational; Python `round`
  (round-half-to-even) is `pyRound`.  The concrete speeds appearing in the
  spec are tie-free and their float images round to the same integers as
  the exact rationals.
* External services are oracles passed as arguments: the edge-tts call is a
  `SynthOracle`, the whisper engine a `WhisperEngine`, the outcome of each
  best-effort `os.unlink` a `String → Bool` failure oracle, and the fresh
  path handed out by `tempfile.NamedTemporaryFile` an explicit argument.
-/

namespace Lumenify

/-- Python `str.lower` (ASCII). -/
def pyLower (s : String) : String :=
  String.mk (s.data.map Char.toLower)

/-- Python `str.strip`: drop leading and trailing whitespace. -/
def pyStrip (s : String) : String :=
  String.mk (((s.data.dropWhile Char.isWhitespace).reverse.dropWhile
    Char.isWhitespace).reverse)

/-- `leadMatch needle hay`: `hay` starts with `needle`. -/
def leadMatch : List Char → List Char → Bool
  | [], _ => true
  | _ :: _, [] => false
  | a :: as, b :: bs => a == b && leadMatch as bs

/-- `hasSub needle hay`: `needle` occurs contiguously inside `hay`. -/
def hasSub (needle : List Char) : List Char → Bool
  | [] => needle.isEmpty
  | c :: rest => leadMatch needle (c :: rest) || hasSub needle rest

/-- Python substring test `needle in hay`. -/
def strContains (hay needle : String) : Bool :=
  hasSub needle.data hay.data

/-- `os.path.basename`: the part of the path after the last slash. -/
def basename (p : String) : String :=
  String.mk (p.data.foldl (fun acc c => if c = '/' then [] else acc ++ [c]) [])

/-- One voice-catalog entry (the dict built in `load_voices`; the nested
provider `info` dict is never consulted by the handlers and is omitted). -/
structure VoiceInfo where
  display_name : String
  short_name : String
  language : String
  locale : String
  gender : String
deriving DecidableEq, Repr

/-- Python dict lookup `d.get(k)` over an association list. -/
def dictGet {α : Type} (k : String) : List (String × α) → Option α
  | [] => none
  | (k₂, v) :: rest => if k = k₂ then some v else dictGet k rest

/-- The module-level catalog state: `VOICE_DATA` (keyed by display name) and
`LANGUAGE_VOICES` (keyed by language name). -/
structure Catalog where
  voiceData : List (String × VoiceInfo)
  languageVoices : List (String × List VoiceInfo)
deriving DecidableEq, Repr

/-- Body of the `/api/filter_voices` handler after the search string has been
normalised: source list selection by language, then the gender and search
predicates. -/
def filter_voices_core (cat : Catalog) (language gender search : String) :
    List VoiceInfo :=
  (if language = "All" then cat.voiceData.map Prod.snd
   else (dictGet language cat.languageVoices).getD []).filter fun voice =>
    (gender == "All" || voice.gender == gender) &&
    (search == "" || strContains (pyLower voice.display_name) search)

/-- The `/api/filter_voices` handler: the raw `search` query parameter is
lowercased and stripped before matching. -/
def filter_voices (cat : Catalog) (language gender search : String) :
    List VoiceInfo :=
  filter_voices_core cat language gender (pyStrip (pyLower search))

/-- Python `round`: nearest integer, ties to the even integer. -/
def pyRound (q : ℚ) : ℤ :=
  if q - ⌊q⌋ < 1/2 then ⌊q⌋
  else if q - ⌊q⌋ > 1/2 then ⌊q⌋ + 1
  else if ⌊q⌋ % 2 = 0 then ⌊q⌋ else ⌊q⌋ + 1

/-- `calculate_rate_parameter`: the speed multiplier becomes the edge-tts
percentage-offset rate string. -/
def calculate_rate_parameter (speed : ℚ) : String :=
  if speed = 1 then "+0%"
  else
    let percent : ℤ := pyRound ((speed - 1) * 100)
    if percent > 0 then "+" ++ toString percent ++ "%"
    else toString percent ++ "%"

/-- First fallback descriptor of `get_fallback_voices`. -/
def jennyVoice : VoiceInfo :=
  { display_name := "English Female - Jenny", short_name := "en-US-JennyNeural"
    language := "English", locale := "en-US", gender := "Female" }

/-- Second fallback descriptor of `get_fallback_voices`. -/
def guyVoice : VoiceInfo :=
  { display_name := "English Male - Guy", short_name := "en-US-GuyNeural"
    language := "English", locale := "en-US", gender := "Male" }

/-- `get_fallback_voices`: the built-in catalog used when edge-tts is not
reachable. -/
def get_fallback_voices : List (String × List VoiceInfo) :=
  [("English", [jennyVoice, guyVoice])]

/-- The catalog state after `load_voices` takes the offline path: the
fallback table, with `VOICE_DATA` rebuilt keyed by display name. -/
def fallbackCatalog : Catalog :=
  { voiceData := [(jennyVoice.display_name, jennyVoice),
                  (guyVoice.display_name, guyVoice)]
    languageVoices := get_fallback_voices }

/-- The JSON body produced by `/api/voices` (the `voices` table itself is
the catalog and is not repeated here). -/
structure VoicesResponse where
  languages : List String
  total_voices : Nat
  offline_mode : Bool
deriving DecidableEq, Repr

/-- The `/api/voices` handler. -/
def get_voices (cat : Catalog) : VoicesResponse :=
  { languages := cat.languageVoices.map Prod.fst
    total_voices := cat.voiceData.length
    offline_mode := decide (cat.languageVoices.length ≤ 3) }

/-- Result of `find_voice_by_input`: either a catalog descriptor or the
pass-through stub dict carrying only the raw identifier. -/
inductive FoundVoice where
  | descriptor (v : VoiceInfo)
  | stub (name : String)
deriving DecidableEq, Repr

/-- The short name a `find_voice_by_input` result hands to synthesis. -/
def FoundVoice.shortName : FoundVoice → String
  | FoundVoice.descriptor v => v.short_name
  | FoundVoice.stub n => n

/-- `find_voice_by_input`: display-name lookup, then short-name scan over
the catalog values, then the stub fallback; falsy input gives `None`. -/
def find_voice_by_input (cat : Catalog) (name : Option String) :
    Option FoundVoice :=
  match name with
  | none => none
  | some n =>
    if n = "" then none
    else
      match dictGet n cat.voiceData with
      | some v => some (FoundVoice.descriptor v)
      | none =>
        match (cat.voiceData.map Prod.snd).find? (fun v => v.short_name == n) with
        | some v => some (FoundVoice.descriptor v)
        | none => some (FoundVoice.stub n)

/-- The mutable server state the artifact lifecycle touches: the
`TEMP_FILES` dict (session id → owned path list) and, abstractly, which
paths currently exist on disk. -/
structure AppState where
  tempFiles : String → Option (List String)
  diskFiles : String → Bool

/-- Server state at boot: `TEMP_FILES = {}` and no artifacts on disk. -/
def emptyState : AppState :=
  { tempFiles := fun _ => none, diskFiles := fun _ => false }

/-- The session's owned path list (empty when the session has no entry). -/
def ownedPaths (st : AppState) (sid : String) : List String :=
  (st.tempFiles sid).getD []

/-- The allocation step shared by `/api/preview` and `/api/generate`:
`tempfile.NamedTemporaryFile(delete=False)` creates `path` on disk and the
handler appends it to the session's `TEMP_FILES` entry, creating the entry
if absent. -/
def register_temp_file (st : AppState) (sid path : String) : AppState :=
  { tempFiles := fun s =>
      if s = sid then some ((st.tempFiles sid).getD [] ++ [path])
      else st.tempFiles s
    diskFiles := fun p => if p = path then true else st.diskFiles p }

/-- `cleanup_temp_files`: best-effort `os.unlink` of every owned path (a
failing delete is swallowed by the bare `except`; `deleteFails` says which
deletes fail), then the session's registry entry is deleted unconditionally. -/
def cleanup_temp_files (deleteFails : String → Bool) (st : AppState)
    (sid : String) : AppState :=
  match st.tempFiles sid with
  | none => st
  | some files =>
    { tempFiles := fun s => if s = sid then none else st.tempFiles s
      diskFiles := fun p =>
        if files.contains p && !deleteFails p then false else st.diskFiles p }

/-- Outcome of the `/audio/<session_id>/<filename>` route: stream the first
owned path whose basename matches, else a 404. -/
inductive ServeResult where
  | stream (path : String)
  | notFound
deriving DecidableEq, Repr

/-- The `serve_audio` handler. -/
def serve_audio (st : AppState) (sid fname : String) : ServeResult :=
  match st.tempFiles sid with
  | none => ServeResult.notFound
  | some files =>
    match files.find? (fun p => basename p == fname) with
    | some p => ServeResult.stream p
    | none => ServeResult.notFound

/-- The edge-tts call `Communicate(text, voice, rate=rate).save(path)`, as
an oracle over (text, voice short name, rate string); `Except.error` is a
raised exception. -/
def SynthOracle : Type := String → String → String → Except String Unit

/-- JSON body of a `/api/preview` or `/api/generate` request; `none` marks
an absent key. -/
structure GenRequest where
  voice : Option String
  speed : ℚ
  text : Option String

/-- Response of `/api/preview` and `/api/generate`: an error body with its
HTTP status, or the `/audio/<session_id>/<filename>` artifact reference. -/
inductive ApiResponse where
  | failure (msg : String) (status : Nat)
  | audio (session_id filename : String)
deriving DecidableEq, Repr

/-- The `/api/generate` handler: reject empty text, resolve the voice,
allocate and register the fresh artifact path, then synthesize into it. -/
def generate_speech (synth : SynthOracle) (cat : Catalog) (st : AppState)
    (sid freshPath : String) (req : GenRequest) : ApiResponse × AppState :=
  let text := pyStrip (req.text.getD "")
  if text = "" then (ApiResponse.failure "No text provided" 400, st)
  else
    match find_voice_by_input cat req.voice with
    | none => (ApiResponse.failure "Invalid voice" 400, st)
    | some vobj =>
      let rate := calculate_rate_parameter req.speed
      let st₂ := register_temp_file st sid freshPath
      match synth text vobj.shortName rate with
      | Except.ok _ => (ApiResponse.audio sid (basename freshPath), st₂)
      | Except.error e => (ApiResponse.failure e 500, st₂)

/-- The `/api/preview` handler: same flow as `/api/generate` except the text
defaults to the canned preview sentence and is not checked for emptiness. -/
def preview_voice (synth : SynthOracle) (cat : Catalog) (st : AppState)
    (sid freshPath : String) (req : GenRequest) : ApiResponse × AppState :=
  let text := req.text.getD "Hello! This is a preview."
  match find_voice_by_input cat req.voice with
  | none => (ApiResponse.failure "Invalid voice" 400, st)
  | some vobj =>
    let rate := calculate_rate_parameter req.speed
    let st₂ := register_temp_file st sid freshPath
    match synth text vobj.shortName rate with
    | Except.ok _ => (ApiResponse.audio sid (basename freshPath), st₂)
    | Except.error e => (ApiResponse.failure e 500, st₂)

/-- Two-digit zero-padded field of a `timedelta` rendering. -/
def pad2 (n : Nat) : String :=
  if n < 10 then "0" ++ toString n else toString n

/-- `str(datetime.timedelta(seconds=n))` for the sub-day range the segment
offsets live in: `H:MM:SS`. -/
def formatTimedelta (totalSeconds : Nat) : String :=
  toString (totalSeconds / 3600) ++ ":" ++ pad2 (totalSeconds % 3600 / 60)
    ++ ":" ++ pad2 (totalSeconds % 60)

/-- The whisper engine as an oracle: uploaded bytes to a list of
`(start second, text)` segments, or a raised exception. -/
def WhisperEngine : Type := String → Except String (List (Nat × String))

/-- A `/api/transcribe_upload` request: the `audio` form field, if present,
carries a client filename and the uploaded bytes. -/
structure UploadRequest where
  audio : Option (String × String)

/-- Response of `/api/transcribe_upload`. -/
inductive TranscribeResponse where
  | failure (msg : String) (status : Nat)
  | success (engine transcript full_text : String)
deriving DecidableEq, Repr

/-- The `/api/transcribe_upload` handler: validate the upload, then either
the mock placeholder (no engine loaded) or the engine's timestamped
segments joined by newlines. -/
def transcribe_upload (whisper : Option WhisperEngine) (req : UploadRequest) :
    TranscribeResponse :=
  match req.audio with
  | none => TranscribeResponse.failure "No audio file provided" 400
  | some (fname, bytes) =>
    if fname = "" then TranscribeResponse.failure "No file selected" 400
    else
      match whisper with
      | none => TranscribeResponse.success "Mock Engine"
          "This is a mock transcription. Install whisper engines for real transcription."
          "Mock transcription text"
      | some engine =>
        match engine bytes with
        | Except.error e => TranscribeResponse.failure e 500
        | Except.ok segments =>
          let transcript := String.intercalate "\n" (segments.map fun seg =>
            "[" ++ formatTimedelta seg.1 ++ "] " ++ pyStrip seg.2)
          TranscribeResponse.success "Faster Whisper" transcript transcript

/-- A synthesis provider that accepts every request. -/
def alwaysOkSynth : SynthOracle := fun _ _ _ => Except.ok ()

/-- A synthesis provider that rejects every request. -/
def boomSynth : SynthOracle := fun _ _ _ => Except.error "boom"

/-- Modelled from the spec claim wording, for comparison with the code's
offline test: offline mode exactly when the loaded catalog is at or below
the size of the built-in fallback set (sizes counted in descriptors). -/
def specOfflineMode (cat : Catalog) : Prop :=
  cat.voiceData.length ≤ fallbackCatalog.voiceData.length

/-- A three-language catalog, strictly larger than the fallback set both in
descriptors and in language groups. -/
def threeLangCatalog : Catalog :=
  { voiceData :=
      [("Voz A - Female", { display_name := "Voz A - Female"
                            short_name := "es-ES-AN", language := "Spanish"
                            locale := "es-ES", gender := "Female" }),
       ("Voix B - Male", { display_name := "Voix B - Male"
                           short_name := "fr-FR-BN", language := "French"
                           locale := "fr-FR", gender := "Male" }),
       ("Stimme C - Female", { display_name := "Stimme C - Female"
                               short_name := "de-DE-CN", language := "German"
                               locale := "de-DE", gender := "Female" })]
    languageVoices :=
      [("Spanish", [{ display_name := "Voz A - Female", short_name := "es-ES-AN"
                      language := "Spanish", locale := "es-ES", gender := "Female" }]),
       ("French", [{ display_name := "Voix B - Male", short_name := "fr-FR-BN"
                     language := "French", locale := "fr-FR", gender := "Male" }]),
       ("German", [{ display_name := "Stimme C - Female", short_name := "de-DE-CN"
                     language := "German", locale := "de-DE", gender := "Female" }])] }

/-- A catalog holding the recommended Ava descriptor, for the
case-insensitive search example. -/
def avaCatalog : Catalog :=
  { voiceData := [("Ava - Female", { display_name := "Ava - Female"
                                     short_name := "en-US-AvaNeural"
                                     language := "English", locale := "en-US"
                                     gender := "Female" })]
    languageVoices := [("English", [{ display_name := "Ava - Female"
                                      short_name := "en-US-AvaNeural"
                                      language := "English", locale := "en-US"
                                      gender := "Female" }])] }

/-- A registry with one artifact for each of two sessions. -/
def demoState : AppState :=
  { tempFiles := fun s =>
      if s = "alice" then some ["/tmp/a1.mp3"]
      else if s = "bob" then some ["/tmp/b1.mp3"]
      else none
    diskFiles := fun p => p = "/tmp/a1.mp3" || p = "/tmp/b1.mp3" }

/-! ### Helper lemmas -/

theorem serve_audio_stream_mem {st : AppState} {sid fname p : String}
    (h : serve_audio st sid fname = ServeResult.stream p) :
    p ∈ ownedPaths st sid := by
  unfold serve_audio at h
  cases htf : st.tempFiles sid with
  | none => simp only [htf] at h; exact absurd h (by simp)
  | some files =>
    simp only [htf] at h
    cases hf : files.find? (fun q => basename q == fname) with
    | none => simp only [hf] at h; exact absurd h (by simp)
    | some q =>
      simp only [hf, ServeResult.stream.injEq] at h
      have hmem := List.mem_of_find?_eq_some hf
      rw [h] at hmem
      simpa [ownedPaths, htf] using hmem

theorem find?_skip {α : Type} {p : α → Bool} {l r : List α}
    (h : ∀ x ∈ l, p x = false) : (l ++ r).find? p = r.find? p := by
  induction l with
  | nil => rfl
  | cons a as ih =>
    rw [List.cons_append, List.find?_cons_of_neg _ (by simp [h a (by simp)])]
    exact ih fun x hx => h x (by simp [hx])

theorem ownedPaths_register_self (st : AppState) (sid path : String) :
    ownedPaths (register_temp_file st sid path) sid = ownedPaths st sid ++ [path] := by
  simp [ownedPaths, register_temp_file]

theorem ownedPaths_register_other {sid sid₂ : String} (st : AppState)
    (path : String) (h : sid ≠ sid₂) :
    ownedPaths (register_temp_file st sid₂ path) sid = ownedPaths st sid := by
  simp [ownedPaths, register_temp_file, h]

theorem ownedPaths_cleanup_other {sid sid₂ : String}
    (deleteFails : String → Bool) (st : AppState) (h : sid ≠ sid₂) :
    ownedPaths (cleanup_temp_files deleteFails st sid₂) sid = ownedPaths st sid := by
  unfold cleanup_temp_files
  cases st.tempFiles sid₂ <;> simp [ownedPaths, h]

theorem serve_audio_eq_find (st : AppState) (sid fname : String) :
    serve_audio st sid fname =
      match (ownedPaths st sid).find? (fun p => basename p == fname) with
      | some p => ServeResult.stream p
      | none => ServeResult.notFound := by
  unfold serve_audio ownedPaths
  cases st.tempFiles sid <;> simp

theorem find_voice_resolution {cat : Catalog} {n : String} {fv : FoundVoice}
    (h : find_voice_by_input cat (some n) = some fv) :
    fv.shortName = n ∨
      ∃ v, dictGet n cat.voiceData = some v ∧ fv = FoundVoice.descriptor v := by
  unfold find_voice_by_input at h
  by_cases hn : n = ""
  · simp only [if_pos hn] at h; exact absurd h (by simp)
  · simp only [if_neg hn] at h
    cases hd : dictGet n cat.voiceData with
    | some v =>
      simp only [hd, Option.some.injEq] at h
      exact Or.inr ⟨v, rfl, h.symm⟩
    | none =>
      simp only [hd] at h
      cases hf : (cat.voiceData.map Prod.snd).find? (fun v => v.short_name == n) with
      | some v =>
        simp only [hf, Option.some.injEq] at h
        have hp := List.find?_some hf
        rw [← h]
        exact Or.inl (by simpa [FoundVoice.shortName] using hp)
      | none =>
        simp only [hf, Option.some.injEq] at h
        rw [← h]
        exact Or.inl rfl

/-! ### The claims -/

/-- C1: once `cleanup_temp_files` (the `/api/cleanup` purge) returns for a
session, `serve_audio` answers 404 for that session and every basename,
whatever the per-file deletion outcomes were: the registry entry is cleared
unconditionally. -/
theorem purge_then_serve_not_found (deleteFails : String → Bool)
    (st : AppState) (sid b : String) :
    serve_audio (cleanup_temp_files deleteFails st sid) sid b
      = ServeResult.notFound := by
  unfold cleanup_temp_files
  cases htf : st.tempFiles sid with
  | none => simp [serve_audio, htf]
  | some files => simp [serve_audio]

/-- C2: `serve_audio` only ever streams a path registered in the requesting
session's own owned set; hence an artifact owned by session `A` alone is
never streamed to a different session `B`, even when `B` requests `A`'s
exact basename. -/
theorem serve_audio_session_scoped :
    (∀ (st : AppState) (sid fname p : String),
        serve_audio st sid fname = ServeResult.stream p →
        p ∈ ownedPaths st sid) ∧
    (∀ (st : AppState) (A B p : String),
        p ∈ ownedPaths st A → A ≠ B → p ∉ ownedPaths st B →
        serve_audio st B (basename p) ≠ ServeResult.stream p) := by
  refine ⟨fun st sid fname p h => serve_audio_stream_mem h, ?_⟩
  intro st A B p hA hAB hB hserve
  exact hB (serve_audio_stream_mem hserve)

theorem serve_audio_session_scoped_witness :
    "/tmp/a1.mp3" ∈ ownedPaths demoState "alice" ∧
    "/tmp/a1.mp3" ∉ ownedPaths demoState "bob" ∧
    serve_audio demoState "bob" (basename "/tmp/a1.mp3")
      ≠ ServeResult.stream "/tmp/a1.mp3" :=
  ⟨by decide, by decide,
    serve_audio_session_scoped.2 demoState "alice" "bob" "/tmp/a1.mp3"
      (by decide) (by decide) (by decide)⟩

/-- C3: allocating two artifacts under one session (the shared flow of
`/api/preview` and `/api/generate`) registers both paths in that session's
owned set; provided the platform temp-file facility hands out basenames
fresh for the session (it creates distinctly named files in one directory),
the two paths are distinct, each is servable by its basename, and they stay
servable across allocations and purges touching any other session — only a
purge of the owning session removes them. -/
theorem allocate_registers_serves_until_purge
    (st : AppState) (sid p₁ p₂ : String)
    (h₁ : basename p₁ ∉ (ownedPaths st sid).map basename)
    (h₂ : basename p₂ ∉
      (ownedPaths (register_temp_file st sid p₁) sid).map basename) :
    p₁ ∈ ownedPaths (register_temp_file (register_temp_file st sid p₁) sid p₂) sid ∧
    p₂ ∈ ownedPaths (register_temp_file (register_temp_file st sid p₁) sid p₂) sid ∧
    p₁ ≠ p₂ ∧
    serve_audio (register_temp_file (register_temp_file st sid p₁) sid p₂) sid
        (basename p₁) = ServeResult.stream p₁ ∧
    serve_audio (register_temp_file (register_temp_file st sid p₁) sid p₂) sid
        (basename p₂) = ServeResult.stream p₂ ∧
    (∀ sid₂ q fname, sid ≠ sid₂ →
      serve_audio (register_temp_file
          (register_temp_file (register_temp_file st sid p₁) sid p₂) sid₂ q)
          sid fname
        = serve_audio (register_temp_file (register_temp_file st sid p₁) sid p₂)
            sid fname) ∧
    (∀ sid₂ deleteFails fname, sid ≠ sid₂ →
      serve_audio (cleanup_temp_files deleteFails
          (register_temp_file (register_temp_file st sid p₁) sid p₂) sid₂)
          sid fname
        = serve_audio (register_temp_file (register_temp_file st sid p₁) sid p₂)
            sid fname) := by
  rw [ownedPaths_register_self] at h₂
  have howned : ownedPaths (register_temp_file (register_temp_file st sid p₁) sid p₂) sid
      = (ownedPaths st sid ++ [p₁]) ++ [p₂] := by
    rw [ownedPaths_register_self, ownedPaths_register_self]
  have hmap₁ : ∀ x ∈ ownedPaths st sid, (basename x == basename p₁) = false := by
    intro x hx
    simp only [beq_eq_false_iff_ne, ne_eq]
    intro hxe
    exact h₁ (hxe ▸ List.mem_map_of_mem basename hx)
  have hmap₂ : ∀ x ∈ ownedPaths st sid ++ [p₁], (basename x == basename p₂) = false := by
    intro x hx
    simp only [beq_eq_false_iff_ne, ne_eq]
    intro hxe
    exact h₂ (hxe ▸ List.mem_map_of_mem basename hx)
  have hne : p₁ ≠ p₂ := by
    intro he
    have : (basename p₁ == basename p₂) = false := hmap₂ p₁ (by simp)
    simp [he] at this
  refine ⟨by rw [howned]; simp, by rw [howned]; simp, hne, ?_, ?_, ?_, ?_⟩
  · rw [serve_audio_eq_find, howned, List.append_assoc, find?_skip hmap₁]
    rw [List.singleton_append, List.find?_cons_of_pos _ (by simp)]
  · rw [serve_audio_eq_find, howned, find?_skip hmap₂]
    rw [List.find?_cons_of_pos _ (by simp)]
  · intro sid₂ q fname hs
    rw [serve_audio_eq_find, serve_audio_eq_find, ownedPaths_register_other _ _ hs]
  · intro sid₂ deleteFails fname hs
    rw [serve_audio_eq_find, serve_audio_eq_find, ownedPaths_cleanup_other _ _ hs]

theorem allocate_registers_serves_until_purge_witness :
    basename "/tmp/gen1.mp3" ∉ (ownedPaths emptyState "s").map basename ∧
    basename "/tmp/gen2.mp3" ∉
      (ownedPaths (register_temp_file emptyState "s" "/tmp/gen1.mp3") "s").map basename ∧
    "/tmp/gen1.mp3" ≠ "/tmp/gen2.mp3" ∧
    serve_audio (register_temp_file
        (register_temp_file emptyState "s" "/tmp/gen1.mp3") "s" "/tmp/gen2.mp3") "s"
        (basename "/tmp/gen1.mp3") = ServeResult.stream "/tmp/gen1.mp3" :=
  ⟨by decide, by decide,
    (allocate_registers_serves_until_purge emptyState "s" "/tmp/gen1.mp3"
      "/tmp/gen2.mp3" (by decide) (by decide)).2.2.1,
    (allocate_registers_serves_until_purge emptyState "s" "/tmp/gen1.mp3"
      "/tmp/gen2.mp3" (by decide) (by decide)).2.2.2.1⟩

/-- C4: the speed-to-rate conversion table — `1.0 → "+0%"`, `1.25 → "+25%"`,
`0.9 → "-10%"`, `1.2 → "+20%"`, `0.8 → "-20%"` — and `pyRound` really is
rounding to a nearest integer (the conversion is a pure function of the
speed, hence deterministic). -/
theorem rate_parameter_table :
    calculate_rate_parameter 1 = "+0%" ∧
    calculate_rate_parameter (5/4) = "+25%" ∧
    calculate_rate_parameter (9/10) = "-10%" ∧
    calculate_rate_parameter (6/5) = "+20%" ∧
    calculate_rate_parameter (4/5) = "-20%" ∧
    (∀ q : ℚ, |q - (pyRound q : ℚ)| ≤ 1/2) := by
  refine ⟨by simp [calculate_rate_parameter], ?_, ?_, ?_, ?_, ?_⟩
  · have h : pyRound (25 : ℚ) = 25 := by norm_num [pyRound]
    norm_num [calculate_rate_parameter, h]
    decide
  · have h : pyRound (-10 : ℚ) = -10 := by norm_num [pyRound]
    norm_num [calculate_rate_parameter, h]
    decide
  · have h : pyRound (20 : ℚ) = 20 := by norm_num [pyRound]
    norm_num [calculate_rate_parameter, h]
    decide
  · have h : pyRound (-20 : ℚ) = -20 := by norm_num [pyRound]
    norm_num [calculate_rate_parameter, h]
    decide
  · intro q
    have h0 : ((⌊q⌋ : ℤ) : ℚ) ≤ q := Int.floor_le q
    have h1 : q < ((⌊q⌋ : ℤ) : ℚ) + 1 := Int.lt_floor_add_one q
    unfold pyRound
    split_ifs with ha hb hc
    · rw [abs_le]; constructor <;> [linarith; linarith]
    · rw [abs_le]; push_cast; constructor <;> [linarith; linarith]
    · rw [abs_le]; constructor <;> [linarith; linarith]
    · rw [abs_le]; push_cast; constructor <;> [linarith; linarith]

/-- C5 counterexample: the code's offline test compares the number of
language groups against the constant 3, not against the size of the
built-in fallback set.  A three-language catalog is strictly larger than
the fallback set (3 descriptors vs 2; 3 language groups vs 1), yet
`/api/voices` still reports `offline_mode = true` for it. -/
theorem offline_mode_not_fallback_size :
    (get_voices threeLangCatalog).offline_mode = true ∧
    ¬ specOfflineMode threeLangCatalog ∧
    ¬ threeLangCatalog.languageVoices.length
        ≤ fallbackCatalog.languageVoices.length := by
  refine ⟨by decide, ?_, by decide⟩
  unfold specOfflineMode
  decide

/-- C5 (amended): `/api/voices` reports `offline_mode = true` exactly when
the loaded catalog has at most 3 language groups; in particular, when only
the built-in fallback catalog is loaded the response has
`offline_mode = true`. -/
theorem offline_mode_means_few_language_groups :
    (∀ cat : Catalog,
        (get_voices cat).offline_mode = true ↔ cat.languageVoices.length ≤ 3) ∧
    (get_voices fallbackCatalog).offline_mode = true := by
  constructor
  · intro cat
    simp [get_voices]
  · decide

theorem offline_mode_means_few_language_groups_witness :
    (get_voices threeLangCatalog).offline_mode = true ∧
    threeLangCatalog.languageVoices.length ≤ 3 :=
  ⟨(offline_mode_means_few_language_groups.1 threeLangCatalog).mpr (by decide),
    by decide⟩

/-- C6: filtering with `language="All"`, `gender="All"` and the empty
search string returns exactly the descriptor list of the loaded catalog —
every known descriptor once, nothing duplicated, nothing omitted. -/
theorem filter_all_returns_every_descriptor_once (cat : Catalog) :
    filter_voices cat "All" "All" "" = cat.voiceData.map Prod.snd := by
  have hs : pyStrip (pyLower "") = "" := rfl
  unfold filter_voices
  rw [hs]
  unfold filter_voices_core
  simp

/-- C7 counterexample: an identifier unresolvable in the catalog does not
produce an error result — `find_voice_by_input` passes it through as a stub
and, with a provider that accepts it, `/api/generate` succeeds. -/
theorem uncatalogued_voice_request_succeeds :
    find_voice_by_input fallbackCatalog (some "xx-ZZ-FakeNeural")
      = some (FoundVoice.stub "xx-ZZ-FakeNeural") ∧
    (generate_speech alwaysOkSynth fallbackCatalog emptyState "s1" "/tmp/out.mp3"
      { voice := some "xx-ZZ-FakeNeural", speed := 1, text := some "hello" }).1
      = ApiResponse.audio "s1" "out.mp3" :=
  ⟨by decide, by decide⟩

/-- C7 (amended): a missing or empty voice identifier yields the 400
`Invalid voice` error; a provider rejection of the resolved short name
propagates as an error response; and the short name handed to synthesis is
never a silently substituted voice — it is either the requested string
itself or the short name of the catalog descriptor whose display name is
exactly the requested string. -/
theorem voice_errors_propagate_never_substituted :
    (∀ (synth : SynthOracle) (cat : Catalog) (st : AppState) (sid p : String)
        (req : GenRequest),
        pyStrip (req.text.getD "") ≠ "" →
        req.voice = none ∨ req.voice = some "" →
        generate_speech synth cat st sid p req
          = (ApiResponse.failure "Invalid voice" 400, st)) ∧
    (∀ (synth : SynthOracle) (cat : Catalog) (st : AppState) (sid p : String)
        (req : GenRequest) (vobj : FoundVoice) (e : String),
        pyStrip (req.text.getD "") ≠ "" →
        find_voice_by_input cat req.voice = some vobj →
        synth (pyStrip (req.text.getD "")) vobj.shortName
            (calculate_rate_parameter req.speed) = Except.error e →
        (generate_speech synth cat st sid p req).1 = ApiResponse.failure e 500) ∧
    (∀ (cat : Catalog) (n : String) (fv : FoundVoice),
        find_voice_by_input cat (some n) = some fv →
        fv.shortName = n ∨
          ∃ v, dictGet n cat.voiceData = some v ∧ fv = FoundVoice.descriptor v) := by
  refine ⟨?_, ?_, fun cat n fv h => find_voice_resolution h⟩
  · intro synth cat st sid p req ht hv
    simp only [generate_speech]
    rw [if_neg ht]
    rcases hv with h | h <;> rw [h] <;> simp [find_voice_by_input]
  · intro synth cat st sid p req vobj e ht hfind hsy
    simp only [generate_speech]
    rw [if_neg ht]
    simp only [hfind, hsy]

theorem voice_errors_propagate_never_substituted_witness :
    pyStrip ((some "hi" : Option String).getD "") ≠ "" ∧
    find_voice_by_input fallbackCatalog (some "en-US-JennyNeural")
      = some (FoundVoice.descriptor jennyVoice) ∧
    (generate_speech boomSynth fallbackCatalog emptyState "s2" "/tmp/p.mp3"
      { voice := some "en-US-JennyNeural", speed := 1, text := some "hi" }).1
      = ApiResponse.failure "boom" 500 :=
  ⟨by decide, by decide,
    voice_errors_propagate_never_substituted.2.1 boomSynth fallbackCatalog
      emptyState "s2" "/tmp/p.mp3"
      { voice := some "en-US-JennyNeural", speed := 1, text := some "hi" }
      (FoundVoice.descriptor jennyVoice) "boom" (by decide) (by decide) rfl⟩

/-- C8 counterexample: with no transcription engine configured, a
`/api/transcribe_upload` call that lacks the `audio` form field still gets
an error response, not the Mock Engine placeholder — upload validation runs
before the engine check. -/
theorem transcribe_upload_missing_file_error :
    transcribe_upload none { audio := none }
      = TranscribeResponse.failure "No audio file provided" 400 := rfl

/-- C8 (amended): every `/api/transcribe_upload` call that passes upload
validation (an `audio` field with a non-empty filename) returns, when no
engine is configured, the success response naming `"Mock Engine"` with the
placeholder transcript — never an error. -/
theorem transcribe_upload_mock_engine (fname bytes : String) (h : fname ≠ "") :
    transcribe_upload none { audio := some (fname, bytes) }
      = TranscribeResponse.success "Mock Engine"
          "This is a mock transcription. Install whisper engines for real transcription."
          "Mock transcription text" := by
  simp only [transcribe_upload]
  rw [if_neg h]

theorem transcribe_upload_mock_engine_witness :
    ("clip.mp3" : String) ≠ "" ∧
    transcribe_upload none { audio := some ("clip.mp3", "RIFFdata") }
      = TranscribeResponse.success "Mock Engine"
          "This is a mock transcription. Install whisper engines for real transcription."
          "Mock transcription text" :=
  ⟨by decide, transcribe_upload_mock_engine "clip.mp3" "RIFFdata" (by decide)⟩

/-- C10: a `/api/preview` body without a `text` key behaves exactly as if
the text were the canned `"Hello! This is a preview."`, and with a
resolvable voice the missing text never produces a 400 validation error;
`/api/generate` rejects a missing or empty text with the 400 error
response. -/
theorem preview_defaults_text_generate_requires_text :
    (∀ (synth : SynthOracle) (cat : Catalog) (st : AppState) (sid p : String)
        (voice : Option String) (speed : ℚ),
        preview_voice synth cat st sid p
            { voice := voice, speed := speed, text := none }
          = preview_voice synth cat st sid p
              { voice := voice, speed := speed,
                text := some "Hello! This is a preview." }) ∧
    (∀ (synth : SynthOracle) (cat : Catalog) (st : AppState) (sid p : String)
        (req : GenRequest) (vobj : FoundVoice) (msg : String),
        find_voice_by_input cat req.voice = some vobj →
        (preview_voice synth cat st sid p req).1 ≠ ApiResponse.failure msg 400) ∧
    (∀ (synth : SynthOracle) (cat : Catalog) (st : AppState) (sid p : String)
        (voice : Option String) (speed : ℚ) (t : Option String),
        t = none ∨ t = some "" →
        generate_speech synth cat st sid p
            { voice := voice, speed := speed, text := t }
          = (ApiResponse.failure "No text provided" 400, st)) := by
  refine ⟨fun synth cat st sid p voice speed => rfl, ?_, ?_⟩
  · intro synth cat st sid p req vobj msg hfind h
    simp only [preview_voice, hfind] at h
    cases hsy : synth (req.text.getD "Hello! This is a preview.") vobj.shortName
        (calculate_rate_parameter req.speed) with
    | ok u => simp [hsy] at h
    | error e => simp [hsy] at h
  · intro synth cat st sid p voice speed t ht
    rcases ht with rfl | rfl <;> rfl

theorem preview_defaults_text_generate_requires_text_witness :
    find_voice_by_input fallbackCatalog (some "English Female - Jenny")
      = some (FoundVoice.descriptor jennyVoice) ∧
    (preview_voice alwaysOkSynth fallbackCatalog emptyState "s3" "/tmp/q.mp3"
      { voice := some "English Female - Jenny", speed := 1, text := none }).1
      ≠ ApiResponse.failure "No text provided" 400 ∧
    generate_speech alwaysOkSynth fallbackCatalog emptyState "s3" "/tmp/q.mp3"
      { voice := some "English Female - Jenny", speed := 1, text := none }
      = (ApiResponse.failure "No text provided" 400, emptyState) :=
  ⟨by decide,
    preview_defaults_text_generate_requires_text.2.1 alwaysOkSynth fallbackCatalog
      emptyState "s3" "/tmp/q.mp3"
      { voice := some "English Female - Jenny", speed := 1, text := none }
      (FoundVoice.descriptor jennyVoice) "No text provided" (by decide),
    preview_defaults_text_generate_requires_text.2.2 alwaysOkSynth fallbackCatalog
      emptyState "s3" "/tmp/q.mp3" (some "English Female - Jenny") 1 none
      (Or.inl rfl)⟩

/-- C9: filtering by a search substring is case-insensitive — two search
strings with the same lowercasing filter identically, for every catalog,
language and gender — and the descriptor whose display name is
`"Ava - Female"` is returned for the search `"ava"`. -/
theorem filter_search_case_insensitive :
    (∀ (cat : Catalog) (language gender s t : String),
        pyLower s = pyLower t →
        filter_voices cat language gender s = filter_voices cat language gender t) ∧
    filter_voices avaCatalog "All" "All" "ava"
      = [{ display_name := "Ava - Female", short_name := "en-US-AvaNeural"
           language := "English", locale := "en-US", gender := "Female" }] := by
  constructor
  · intro cat language gender s t h
    unfold filter_voices
    rw [h]
  · decide

theorem filter_search_case_insensitive_witness :
    pyLower "AVA" = pyLower "ava" ∧
    filter_voices avaCatalog "All" "All" "AVA"
      = filter_voices avaCatalog "All" "All" "ava" :=
  ⟨by decide,
    filter_search_case_insensitive.1 avaCatalog "All" "All" "AVA" "ava" (by decide)⟩

end Lumenify
